import Mathlib

/-!
Verification of the AISurvey Flask application (`src/app.py`).

The application collects survey responses through a web form, stores them
in a SQLite table, and renders aggregate statistics on a dashboard.  We
embed the response-ingestion-and-aggregation path shallowly:

* `SurveyResponse` mirrors a row of the `responses` table
  (columns `id, timestamp, ai_adoption, ai_impact, biggest_concern,
  ai_opportunities, implementation_barriers`).
* `StoreState` models the table contents in insertion order together with
  the `AUTOINCREMENT` counter (SQLite assigns ids 1, 2, 3, ...).
* Timestamps are the `TEXT` values produced by
  `datetime.now().strftime` and are compared as strings, exactly as
  SQLite compares the `timestamp` column in `ORDER BY timestamp DESC`.
* A submitted form is an association list of field name to string value;
  `formGet` models Python `dict.get` (`None` when the key is absent).
-/

structure SurveyResponse where
  id : Nat
  timestamp : String
  ai_adoption : String
  ai_impact : String
  biggest_concern : String
  ai_opportunities : String
  implementation_barriers : String
  deriving Repr, DecidableEq

structure StoreState where
  rows : List SurveyResponse
  nextId : Nat
  deriving Repr, DecidableEq

/-- The freshly initialised database (`init_db` creates an empty table;
SQLite `AUTOINCREMENT` hands out 1 first). -/
def initialState : StoreState := ⟨[], 1⟩

/-- A submitted form: `request.form.to_dict()` as an association list. -/
def Form := List (String × String)

/-- Python dict lookup `f.get(k)`: `None` (here `none`) when absent. -/
def formGet (f : Form) (k : String) : Option String :=
  (f.find? (fun p => p.1 == k)).map (fun p => p.2)

/-- Python dict lookup with default, the empty string standing in when
the key is absent. -/
def formGetD (f : Form) (k : String) : String :=
  (formGet f k).getD ""

/-- Python truthiness test `not request.form.get(field)`: the field is
"missing" when the key is absent or its value is the empty string. -/
def fieldMissing (f : Form) (k : String) : Bool :=
  match formGet f k with
  | none => true
  | some v => v == ""

/-- The function save_response from `src/app.py`: inserts one row using
the dict lookup with empty-string default for each of the five answer
columns, with a server-assigned timestamp (parameter `now`, which the
code formats from the wall clock as %Y-%m-%d %H:%M:%S) and the
autoincrement id. -/
def save_response (now : String) (data : Form) (st : StoreState) : StoreState :=
  { rows := st.rows ++
      [{ id := st.nextId
         timestamp := now
         ai_adoption := formGetD data "ai_adoption"
         ai_impact := formGetD data "ai_impact"
         biggest_concern := formGetD data "biggest_concern"
         ai_opportunities := formGetD data "ai_opportunities"
         implementation_barriers := formGetD data "implementation_barriers" }]
    nextId := st.nextId + 1 }

/-- Bytewise lexicographic comparison, the order SQLite uses on `TEXT`
columns (`memcmp`).  The timestamps stored by `save_response` are ASCII,
where byte order and code-point order coincide, so we compare the
code points of the characters. -/
def strLeb : List Char → List Char → Bool
  | [], _ => true
  | _ :: _, [] => false
  | c :: cs, d :: ds =>
    if c.toNat < d.toNat then true
    else if d.toNat < c.toNat then false
    else strLeb cs ds

theorem strLeb_nil_left (l : List Char) : strLeb [] l = true := rfl

theorem strLeb_cons_iff (c d : Char) (cs ds : List Char) :
    strLeb (c :: cs) (d :: ds) = true ↔
      c.toNat < d.toNat ∨ (c.toNat = d.toNat ∧ strLeb cs ds = true) := by
  by_cases h1 : c.toNat < d.toNat
  · simp [strLeb, h1]
  · by_cases h2 : d.toNat < c.toNat
    · simp only [strLeb, if_neg h1, if_pos h2]
      constructor
      · intro h; cases h
      · rintro (h | ⟨h, -⟩) <;> omega
    · have h3 : c.toNat = d.toNat := by omega
      simp [strLeb, h1, h2, h3]

theorem strLeb_total (x : List Char) :
    ∀ y, strLeb x y = true ∨ strLeb y x = true := by
  induction x with
  | nil => intro y; left; rfl
  | cons c cs ih =>
    intro y
    cases y with
    | nil => right; rfl
    | cons d ds =>
      rcases Nat.lt_trichotomy c.toNat d.toNat with h | h | h
      · exact Or.inl ((strLeb_cons_iff _ _ _ _).mpr (Or.inl h))
      · rcases ih ds with h' | h'
        · exact Or.inl ((strLeb_cons_iff _ _ _ _).mpr (Or.inr ⟨h, h'⟩))
        · exact Or.inr ((strLeb_cons_iff _ _ _ _).mpr (Or.inr ⟨h.symm, h'⟩))
      · exact Or.inr ((strLeb_cons_iff _ _ _ _).mpr (Or.inl h))

theorem strLeb_trans (x : List Char) :
    ∀ y z, strLeb x y = true → strLeb y z = true → strLeb x z = true := by
  induction x with
  | nil => intro y z _ _; rfl
  | cons c cs ih =>
    intro y z hxy hyz
    cases y with
    | nil => simp [strLeb] at hxy
    | cons d ds =>
      cases z with
      | nil => simp [strLeb] at hyz
      | cons e es =>
        rcases (strLeb_cons_iff _ _ _ _).mp hxy with h1 | ⟨h1, h1'⟩ <;>
          rcases (strLeb_cons_iff _ _ _ _).mp hyz with h2 | ⟨h2, h2'⟩
        · exact (strLeb_cons_iff _ _ _ _).mpr (Or.inl (by omega))
        · exact (strLeb_cons_iff _ _ _ _).mpr (Or.inl (by omega))
        · exact (strLeb_cons_iff _ _ _ _).mpr (Or.inl (by omega))
        · exact (strLeb_cons_iff _ _ _ _).mpr (Or.inr ⟨by omega, ih ds es h1' h2'⟩)

/-- Comparison of two stored `TEXT` timestamps, first at most second. -/
def tsLe (a b : String) : Prop := strLeb a.data b.data = true

instance (a b : String) : Decidable (tsLe a b) :=
  inferInstanceAs (Decidable (_ = true))

/-- The ordering used by `SELECT * FROM responses ORDER BY timestamp DESC`:
row `a` comes no later than row `b` in the output when
`b.timestamp ≤ a.timestamp`. -/
def tsDesc (a b : SurveyResponse) : Prop := tsLe b.timestamp a.timestamp

instance : DecidableRel tsDesc := fun a b =>
  inferInstanceAs (Decidable (tsLe b.timestamp a.timestamp))

instance : IsTotal SurveyResponse tsDesc :=
  ⟨fun a b => (strLeb_total b.timestamp.data a.timestamp.data).imp id id⟩

instance : IsTrans SurveyResponse tsDesc :=
  ⟨fun _ _ _ hab hbc => strLeb_trans _ _ _ hbc hab⟩

/-- The function get_responses from `src/app.py`: all rows of the table,
ordered by timestamp descending (a sort of the table contents under
`tsDesc`). -/
def get_responses (st : StoreState) : List SurveyResponse :=
  List.insertionSort tsDesc st.rows

example : formGetD [("a", "x")] "a" = "x" := by decide
example : fieldMissing [("a", "")] "a" = true := by decide
example : tsLe "2024-01-01 00:00:00" "2024-01-02 00:00:00" := by decide
example : ¬ tsLe "2024-01-03 00:00:00" "2024-01-02 00:00:00" := by decide

/-! ## Survey question configuration (`SURVEY_QUESTIONS` in `src/app.py`) -/

structure McqQuestion where
  id : String
  question : String
  options : List String
  deriving Repr, DecidableEq

structure FreeQuestion where
  id : String
  question : String
  deriving Repr, DecidableEq

structure SurveyConfig where
  mcq : List McqQuestion
  free_response : List FreeQuestion
  deriving Repr, DecidableEq

def SURVEY_QUESTIONS : SurveyConfig :=
  { mcq :=
      [{ id := "ai_adoption"
         question := "What is your organization\x27s current level of AI adoption in finance operations?"
         options :=
           ["No AI adoption yet",
            "Pilot projects/early exploration",
            "Limited implementation in specific areas",
            "Widespread adoption across multiple functions",
            "Fully integrated AI-driven operations"] },
       { id := "ai_impact"
         question := "How do you expect AI to impact the finance industry in the next 3-5 years?"
         options :=
           ["Minimal impact - traditional methods will remain dominant",
            "Moderate impact - AI will supplement existing processes",
            "Significant impact - AI will transform many finance functions",
            "Revolutionary impact - AI will fundamentally reshape the industry",
            "Uncertain/Too early to tell"] },
       { id := "biggest_concern"
         question := "What is your biggest concern regarding AI implementation in finance?"
         options :=
           ["Data security and privacy risks",
            "Regulatory compliance and governance",
            "Job displacement and workforce impact",
            "Accuracy and reliability of AI decisions",
            "Cost of implementation and ROI uncertainty",
            "Lack of technical expertise/skills gap"] }]
    free_response :=
      [{ id := "ai_opportunities"
         question := "What specific opportunities do you see for AI in your finance operations? (Please describe in detail)" },
       { id := "implementation_barriers"
         question := "What are the main barriers preventing or slowing down AI adoption in your organization? (Please explain)" }] }

/-- The option set declared for a single-choice question id. -/
def optionsFor (qid : String) : List String :=
  ((SURVEY_QUESTIONS.mcq.find? (fun q => q.id == qid)).map (fun q => q.options)).getD []

/-! ## Intake Handler (`submit_survey` in `src/app.py`) -/

/-- Python `str.replace('_', ' ')` specialised to the single character
underscore. -/
def replaceUnderscores (s : String) : String :=
  ⟨s.data.map (fun c => if c == '_' then ' ' else c)⟩

/-- Helper for `pyTitle`: the `Bool` records whether the previous character
was alphabetic (so the current letter continues a word). -/
def pyTitleGo : Bool → List Char → List Char
  | _, [] => []
  | prevAlpha, c :: cs =>
    (if c.isAlpha then (if prevAlpha then c.toLower else c.toUpper) else c)
      :: pyTitleGo c.isAlpha cs

/-- Python `str.title()`: the first letter of every alphabetic run is
uppercased, the rest lowercased. -/
def pyTitle (s : String) : String := ⟨pyTitleGo false s.data⟩

example : pyTitle (replaceUnderscores "ai_adoption") = "Ai Adoption" := by decide
example : pyTitle (replaceUnderscores "biggest_concern") = "Biggest Concern" := by decide

/-- The list `required_fields` declared in `submit_survey`, in its fixed
order. -/
def requiredFields : List String :=
  ["ai_adoption", "ai_impact", "biggest_concern", "ai_opportunities",
   "implementation_barriers"]

/-- Outcome of the `/submit` route: either the rendered `error.html` page
with its message, or the rendered `thank_you.html` page. -/
inductive SubmitResult where
  | error (message : String)
  | thankYou
  deriving Repr, DecidableEq

/-- The handler submit_survey from `src/app.py`: loops over `required_fields` in
order and returns the error page at the first field for which
`request.form.get(field)` is falsy; otherwise saves
`request.form.to_dict()` and returns the thank-you page.  The early
`return` in the loop is modelled by `List.find?`. -/
def submit_survey (now : String) (f : Form) (st : StoreState) :
    SubmitResult × StoreState :=
  match requiredFields.find? (fun k => fieldMissing f k) with
  | some k =>
      (.error ("Please fill in all required fields. Missing: "
          ++ pyTitle (replaceUnderscores k)), st)
  | none => (.thankYou, save_response now f st)

/-! ## Aggregator (`dashboard` in `src/app.py`) -/

/-- Model of `pandas.Series.value_counts` on a column: one `(value, count)` pair for
each distinct value.  (pandas orders the pairs by descending count; the
order of the pairs carries no meaning here, only the counts do.) -/
def value_counts (l : List String) : List (String × Nat) :=
  l.dedup.map (fun v => (v, l.count v))

/-- Model of the latest-response computation in the dashboard route: the
maximum of the timestamp column under the `TEXT` order when the frame is
non-empty, the sentinel `"No responses yet"` otherwise. -/
def tsMax : List String → String
  | [] => "No responses yet"
  | t :: ts => ts.foldl (fun acc u => if strLeb acc.data u.data then u else acc) t

/-- The rendered dashboard: the empty-store branch renders only a message
and an empty chart list; the main branch renders the three charts (each
modelled by its title and the tally its figure plots), the total count and
the latest timestamp. -/
inductive DashboardView where
  | noData (message : String) (charts : List (String × List (String × Nat)))
  | data (charts : List (String × List (String × Nat)))
      (totalResponses : Nat) (latestResponse : String)
  deriving Repr, DecidableEq

/-- The route dashboard from `src/app.py`: reads the responses; if there
are none it returns the `"No survey responses yet."` page with
`charts=[]`; otherwise it tallies the three single-choice columns with
`value_counts`, takes the frame length as the total and the maximum of
the timestamp column as the latest response. -/
def dashboard (st : StoreState) : DashboardView :=
  let responses := get_responses st
  if responses.isEmpty then
    DashboardView.noData "No survey responses yet." []
  else
    DashboardView.data
      [("AI Adoption Levels", value_counts (responses.map (fun r => r.ai_adoption))),
       ("Expected AI Impact", value_counts (responses.map (fun r => r.ai_impact))),
       ("Biggest Concerns", value_counts (responses.map (fun r => r.biggest_concern)))]
      responses.length
      (tsMax (responses.map (fun r => r.timestamp)))

/-- Modelled from the spec: Python `str.strip()`, removing leading and
trailing whitespace. -/
def pyStrip (s : String) : String :=
  ⟨((s.data.dropWhile Char.isWhitespace).reverse.dropWhile Char.isWhitespace).reverse⟩

/-- Modelled from the spec: the featured free-text excerpts for one
free-text question.  `src/app.py` computes no excerpts (its `dashboard`
route passes only the three charts, the total and the latest timestamp to
the template, and the HTML templates of the repository are not part of
the sources here), so the selection is taken from the specification: "the
first 3 non-empty, whitespace-trimmed responses in store order
(most-recent-first) ... If fewer than 3 exist, return all of them."  The
input `texts` is the free-text column in most-recent-first order. -/
def featuredExcerpts (texts : List String) : List String :=
  ((texts.map pyStrip).filter (fun s => !(s == ""))).take 3

/-! ## Reachable store states

The only operation of the application that writes to the store is the
`/submit` route (`init_db` merely creates the empty table).  A store state
is reachable when it arises from the fresh database by a sequence of
submissions. -/

inductive Reachable : StoreState → Prop where
  | init : Reachable initialState
  | submit (now : String) (f : Form) {st : StoreState} :
      Reachable st → Reachable (submit_survey now f st).2

/-! ## Shared helper lemmas -/

theorem get_responses_perm (st : StoreState) : (get_responses st).Perm st.rows :=
  List.perm_insertionSort tsDesc st.rows

theorem get_responses_sorted (st : StoreState) :
    List.Sorted tsDesc (get_responses st) :=
  List.sorted_insertionSort tsDesc st.rows

theorem fieldMissing_false_getD (f : Form) (k : String)
    (h : fieldMissing f k = false) : formGetD f k ≠ "" := by
  unfold fieldMissing at h
  unfold formGetD
  cases hg : formGet f k with
  | none => rw [hg] at h; cases h
  | some v =>
    rw [hg] at h
    rw [Option.getD_some]
    intro hv
    rw [hv] at h
    simp at h

theorem reachable_id_bound (st : StoreState) (h : Reachable st) :
    ∀ r ∈ st.rows, r.id < st.nextId := by
  induction h with
  | init => intro r hr; cases hr
  | submit now f hprev ih =>
    intro r hr
    rcases hfind : requiredFields.find? (fun j => fieldMissing f j) with - | k
    · simp only [submit_survey, hfind, save_response] at hr ⊢
      rcases List.mem_append.mp hr with hmem | hnew
      · exact Nat.lt_succ_of_lt (ih r hmem)
      · rw [List.mem_singleton.mp hnew]
        exact Nat.lt_succ_self _
    · simp only [submit_survey, hfind] at hr ⊢
      exact ih r hr

theorem sum_value_counts (l : List String) :
    ((value_counts l).map Prod.snd).sum = l.length := by
  have h := Multiset.toFinset_sum_count_eq (α := String) (l : Multiset String)
  rw [value_counts, List.map_map]
  simpa [Finset.sum, Multiset.toFinset] using h

/-! ## The claims -/

/-- C5: `listAll` (`get_responses`) returns all stored responses — a
permutation of the table contents — ordered by timestamp descending
(`tsDesc`-sorted), and on an empty store it returns the empty sequence
rather than an error. -/
theorem c5_listAll_sorted_desc (st : StoreState) :
    (get_responses st).Perm st.rows ∧
    List.Sorted tsDesc (get_responses st) ∧
    (st.rows = [] → get_responses st = []) := by
  refine ⟨get_responses_perm st, get_responses_sorted st, fun h => ?_⟩
  simp [get_responses, h, List.insertionSort]

/-- Witness for C5 at a concrete store: the empty store lists to the empty
sequence. -/
theorem c5_witness : get_responses initialState = [] :=
  (c5_listAll_sorted_desc initialState).2.2 rfl

/-- C3: a submission in which some required field is missing or empty is
rejected — the handler returns the error page — and the store is left
exactly as it was: no write happens. -/
theorem c3_reject_before_write (now : String) (f : Form) (st : StoreState)
    (h : ∃ k ∈ requiredFields, fieldMissing f k = true) :
    (submit_survey now f st).2 = st ∧
    ∃ msg, (submit_survey now f st).1 = SubmitResult.error msg := by
  obtain ⟨k, hk, hm⟩ := h
  have hsome : (requiredFields.find? (fun j => fieldMissing f j)).isSome :=
    List.find?_isSome.mpr ⟨k, hk, hm⟩
  cases hf : requiredFields.find? (fun j => fieldMissing f j) with
  | none => rw [hf] at hsome; cases hsome
  | some j =>
    exact ⟨by simp [submit_survey, hf],
      "Please fill in all required fields. Missing: "
        ++ pyTitle (replaceUnderscores j),
      by simp [submit_survey, hf]⟩

/-- Witness for C3: a concrete submission with `ai_opportunities` present
but empty is rejected and leaves the store unchanged. -/
theorem c3_witness :
    (submit_survey "2024-01-05 10:00:00"
        [("ai_adoption", "No AI adoption yet"),
         ("ai_impact", "Uncertain/Too early to tell"),
         ("biggest_concern", "Data security and privacy risks"),
         ("ai_opportunities", ""),
         ("implementation_barriers", "Skills gap")] initialState).2 = initialState ∧
    ∃ msg,
      (submit_survey "2024-01-05 10:00:00"
        [("ai_adoption", "No AI adoption yet"),
         ("ai_impact", "Uncertain/Too early to tell"),
         ("biggest_concern", "Data security and privacy risks"),
         ("ai_opportunities", ""),
         ("implementation_barriers", "Skills gap")] initialState).1 =
        SubmitResult.error msg :=
  c3_reject_before_write _ _ _ ⟨"ai_opportunities", by decide, by decide⟩

/-- C10: `save_response` never fails on a form with missing keys: it
appends exactly one row, with the next autoincrement id and the given
timestamp, substituting the empty string for every absent field. -/
theorem c10_save_defaults (now : String) (data : Form) (st : StoreState) :
    ∃ r, (save_response now data st).rows = st.rows ++ [r] ∧
      (save_response now data st).rows.length = st.rows.length + 1 ∧
      r.id = st.nextId ∧ r.timestamp = now ∧
      (formGet data "ai_adoption" = none → r.ai_adoption = "") ∧
      (formGet data "ai_impact" = none → r.ai_impact = "") ∧
      (formGet data "biggest_concern" = none → r.biggest_concern = "") ∧
      (formGet data "ai_opportunities" = none → r.ai_opportunities = "") ∧
      (formGet data "implementation_barriers" = none →
        r.implementation_barriers = "") := by
  refine ⟨_, rfl, by simp [save_response], rfl, rfl, ?_, ?_, ?_, ?_, ?_⟩ <;>
    · intro h; simp [formGetD, h]

/-- Counterexample for C1: two valid submissions within the same
wall-clock second (the stored timestamps have second granularity, so this
happens for any two quick submissions) get equal timestamps; the second
submission is accepted and saved — the table ends with the old id-1 row
followed by the new id-2 row — yet the first element of the listing,
which orders by timestamp alone, is the **old** row, not the newly saved
response.  So an unconditional "save then listAll yields the new response
first" is false. -/
theorem c1_counterexample :
    (submit_survey "2024-01-05 10:00:00"
        [("ai_adoption", "a"), ("ai_impact", "b"), ("biggest_concern", "c"),
         ("ai_opportunities", "d"), ("implementation_barriers", "e")]
        (submit_survey "2024-01-05 10:00:00"
          [("ai_adoption", "v"), ("ai_impact", "w"), ("biggest_concern", "x"),
           ("ai_opportunities", "y"), ("implementation_barriers", "z")]
          initialState).2).1 = SubmitResult.thankYou ∧
    (submit_survey "2024-01-05 10:00:00"
        [("ai_adoption", "a"), ("ai_impact", "b"), ("biggest_concern", "c"),
         ("ai_opportunities", "d"), ("implementation_barriers", "e")]
        (submit_survey "2024-01-05 10:00:00"
          [("ai_adoption", "v"), ("ai_impact", "w"), ("biggest_concern", "x"),
           ("ai_opportunities", "y"), ("implementation_barriers", "z")]
          initialState).2).2.rows =
      [SurveyResponse.mk 1 "2024-01-05 10:00:00" "v" "w" "x" "y" "z",
       SurveyResponse.mk 2 "2024-01-05 10:00:00" "a" "b" "c" "d" "e"] ∧
    (get_responses (submit_survey "2024-01-05 10:00:00"
        [("ai_adoption", "a"), ("ai_impact", "b"), ("biggest_concern", "c"),
         ("ai_opportunities", "d"), ("implementation_barriers", "e")]
        (submit_survey "2024-01-05 10:00:00"
          [("ai_adoption", "v"), ("ai_impact", "w"), ("biggest_concern", "x"),
           ("ai_opportunities", "y"), ("implementation_barriers", "z")]
          initialState).2).2).head? =
      some (SurveyResponse.mk 1 "2024-01-05 10:00:00" "v" "w" "x" "y" "z") ∧
    SurveyResponse.mk 1 "2024-01-05 10:00:00" "v" "w" "x" "y" "z" ≠
      SurveyResponse.mk 2 "2024-01-05 10:00:00" "a" "b" "c" "d" "e" := by
  decide

/-- C1 as amended: for a valid submission (all five required fields
non-empty) on a reachable store, **provided** the server-assigned
timestamp is strictly later than every stored timestamp — `tsLe now
r.timestamp` fails for every stored row `r`, which the advancing wall
clock guarantees whenever the submissions fall in distinct seconds —
the submission is accepted and listing the store afterwards puts the
newly saved response first; its id is the autoincrement value, strictly
greater than every previously assigned id (the id bound on the old rows
is the `reachable_id_bound` invariant, not an assumption).  When the new
timestamp ties a stored one the listing, ordered by timestamp alone,
need not put the new response first (`c1_counterexample`). -/
theorem c1_save_then_listAll_first (now : String) (f : Form) (st : StoreState)
    (hreach : Reachable st)
    (hvalid : ∀ k ∈ requiredFields, fieldMissing f k = false)
    (hfresh : ∀ r ∈ st.rows, strLeb now.data r.timestamp.data = false) :
    (submit_survey now f st).1 = SubmitResult.thankYou ∧
    ∃ newR,
      (get_responses (submit_survey now f st).2).head? = some newR ∧
      newR.id = st.nextId ∧ newR.timestamp = now ∧
      ∀ r ∈ st.rows, r.id < newR.id := by
  have hid : ∀ r ∈ st.rows, r.id < st.nextId := reachable_id_bound st hreach
  have hfind : requiredFields.find? (fun j => fieldMissing f j) = none :=
    List.find?_eq_none.mpr (fun j hj => by simp [hvalid j hj])
  have hsubmit : submit_survey now f st = (.thankYou, save_response now f st) := by
    simp [submit_survey, hfind]
  set newR : SurveyResponse :=
    SurveyResponse.mk st.nextId now (formGetD f "ai_adoption")
      (formGetD f "ai_impact") (formGetD f "biggest_concern")
      (formGetD f "ai_opportunities") (formGetD f "implementation_barriers")
    with hnewR
  have hrows : (submit_survey now f st).2.rows = st.rows ++ [newR] := by
    rw [hsubmit, hnewR]
    rfl
  have hperm : (get_responses (submit_survey now f st).2).Perm
      (st.rows ++ [newR]) := by
    rw [← hrows]; exact get_responses_perm _
  have hsorted := get_responses_sorted (submit_survey now f st).2
  have hmem : newR ∈ get_responses (submit_survey now f st).2 :=
    hperm.mem_iff.mpr (by simp)
  obtain ⟨y, ys, hout⟩ :
      ∃ y ys, get_responses (submit_survey now f st).2 = y :: ys := by
    cases houtE : get_responses (submit_survey now f st).2 with
    | nil => rw [houtE] at hmem; cases hmem
    | cons a l => exact ⟨a, l, rfl⟩
  have hy : y = newR := by
    by_contra hne
    have hyl : y ∈ st.rows ++ [newR] :=
      hperm.mem_iff.mp (by rw [hout]; simp)
    rcases List.mem_append.mp hyl with hyr | hy1
    · have hfy := hfresh y hyr
      have hr_in_ys : newR ∈ ys := by
        rw [hout] at hmem
        rcases List.mem_cons.mp hmem with h1 | h2
        · exact absurd h1.symm hne
        · exact h2
      rw [hout] at hsorted
      have hpair : tsDesc y newR :=
        (List.sorted_cons.mp hsorted).1 newR hr_in_ys
      have hle : strLeb now.data y.timestamp.data = true := hpair
      rw [hfy] at hle
      exact absurd hle (by decide)
    · exact hne (List.mem_singleton.mp hy1)
  refine ⟨by rw [hsubmit], newR, ?_, rfl, rfl, fun r hr => hid r hr⟩
  rw [hout, hy]
  rfl

/-- Witness for C1: a store reached by one submission in an earlier
second, then a fresh valid submission: the new response heads the listing
with the larger id. -/
theorem c1_witness :
    (submit_survey "2024-01-02 00:00:00"
        [("ai_adoption", "a"), ("ai_impact", "b"), ("biggest_concern", "c"),
         ("ai_opportunities", "d"), ("implementation_barriers", "e")]
        (submit_survey "2024-01-01 00:00:00"
          [("ai_adoption", "v"), ("ai_impact", "w"), ("biggest_concern", "x"),
           ("ai_opportunities", "y"), ("implementation_barriers", "z")]
          initialState).2).1 = SubmitResult.thankYou ∧
    ∃ newR,
      (get_responses (submit_survey "2024-01-02 00:00:00"
        [("ai_adoption", "a"), ("ai_impact", "b"), ("biggest_concern", "c"),
         ("ai_opportunities", "d"), ("implementation_barriers", "e")]
        (submit_survey "2024-01-01 00:00:00"
          [("ai_adoption", "v"), ("ai_impact", "w"), ("biggest_concern", "x"),
           ("ai_opportunities", "y"), ("implementation_barriers", "z")]
          initialState).2).2).head? = some newR ∧
      newR.id = 2 ∧ newR.timestamp = "2024-01-02 00:00:00" ∧
      ∀ r ∈ (submit_survey "2024-01-01 00:00:00"
          [("ai_adoption", "v"), ("ai_impact", "w"), ("biggest_concern", "x"),
           ("ai_opportunities", "y"), ("implementation_barriers", "z")]
          initialState).2.rows,
        r.id < newR.id :=
  c1_save_then_listAll_first _ _ _ (Reachable.submit _ _ Reachable.init)
    (by decide) (by decide)

/-- C2: when `k` is the first required field (in the declared order of
`required_fields`) that is missing or empty, the handler returns the
validation error page naming exactly that field in human-readable form
(underscores become spaces and the words are title-cased, as in
`pyTitle` composed with `replaceUnderscores`), without touching the store and
without mentioning any later missing field. -/
theorem c2_first_missing_named (now : String) (f : Form) (st : StoreState)
    (k : String) (hk : k ∈ requiredFields) (hmiss : fieldMissing f k = true)
    (hfirst : ∀ j ∈ requiredFields,
      requiredFields.indexOf j < requiredFields.indexOf k →
        fieldMissing f j = false) :
    (submit_survey now f st).1 =
      SubmitResult.error ("Please fill in all required fields. Missing: "
        ++ pyTitle (replaceUnderscores k)) ∧
    (submit_survey now f st).2 = st := by
  have hfind : requiredFields.find? (fun j => fieldMissing f j) = some k := by
    fin_cases hk
    · simp [requiredFields, List.find?_cons, hmiss]
    · have h0 : fieldMissing f "ai_adoption" = false :=
        hfirst _ (by decide) (by decide)
      simp [requiredFields, List.find?_cons, h0, hmiss]
    · have h0 : fieldMissing f "ai_adoption" = false :=
        hfirst _ (by decide) (by decide)
      have h1 : fieldMissing f "ai_impact" = false :=
        hfirst _ (by decide) (by decide)
      simp [requiredFields, List.find?_cons, h0, h1, hmiss]
    · have h0 : fieldMissing f "ai_adoption" = false :=
        hfirst _ (by decide) (by decide)
      have h1 : fieldMissing f "ai_impact" = false :=
        hfirst _ (by decide) (by decide)
      have h2 : fieldMissing f "biggest_concern" = false :=
        hfirst _ (by decide) (by decide)
      simp [requiredFields, List.find?_cons, h0, h1, h2, hmiss]
    · have h0 : fieldMissing f "ai_adoption" = false :=
        hfirst _ (by decide) (by decide)
      have h1 : fieldMissing f "ai_impact" = false :=
        hfirst _ (by decide) (by decide)
      have h2 : fieldMissing f "biggest_concern" = false :=
        hfirst _ (by decide) (by decide)
      have h3 : fieldMissing f "ai_opportunities" = false :=
        hfirst _ (by decide) (by decide)
      simp [requiredFields, List.find?_cons, h0, h1, h2, h3, hmiss]
  exact ⟨by simp [submit_survey, hfind], by simp [submit_survey, hfind]⟩

/-- Witness for C2: in a concrete form whose first two fields are filled,
whose third field is absent and whose fourth is empty, the error names the
third field, `Biggest Concern`, and the store is untouched. -/
theorem c2_witness :
    (submit_survey "2024-01-05 10:00:00"
        [("ai_adoption", "No AI adoption yet"), ("ai_impact", "x"),
         ("ai_opportunities", "")] initialState).1 =
      SubmitResult.error ("Please fill in all required fields. Missing: "
        ++ pyTitle (replaceUnderscores "biggest_concern")) ∧
    (submit_survey "2024-01-05 10:00:00"
        [("ai_adoption", "No AI adoption yet"), ("ai_impact", "x"),
         ("ai_opportunities", "")] initialState).2 = initialState :=
  c2_first_missing_named _ _ _ "biggest_concern" (by decide) (by decide)
    (by decide)

/-- C6: in every store state reachable through the operations of the
application (the fresh database plus any sequence of `/submit` requests),
every stored row has all five answer fields non-empty: no partial response
is ever stored. -/
theorem c6_no_partial_responses (st : StoreState) (h : Reachable st) :
    ∀ r ∈ st.rows, r.ai_adoption ≠ "" ∧ r.ai_impact ≠ "" ∧
      r.biggest_concern ≠ "" ∧ r.ai_opportunities ≠ "" ∧
      r.implementation_barriers ≠ "" := by
  induction h with
  | init => intro r hr; cases hr
  | submit now f hprev ih =>
    intro r hr
    rcases hfind : requiredFields.find? (fun j => fieldMissing f j) with - | k
    · have hall : ∀ j ∈ requiredFields, fieldMissing f j = false := by
        intro j hj
        have := List.find?_eq_none.mp hfind j hj
        simpa using this
      simp only [submit_survey, hfind, save_response] at hr
      rcases List.mem_append.mp hr with hmem | hnew
      · exact ih r hmem
      · have hrow := List.mem_singleton.mp hnew
        subst hrow
        exact ⟨fieldMissing_false_getD _ _ (hall _ (by decide)),
          fieldMissing_false_getD _ _ (hall _ (by decide)),
          fieldMissing_false_getD _ _ (hall _ (by decide)),
          fieldMissing_false_getD _ _ (hall _ (by decide)),
          fieldMissing_false_getD _ _ (hall _ (by decide))⟩
    · simp only [submit_survey, hfind] at hr
      exact ih r hr

/-- Witness for C6: in the state reached from the fresh database by one
valid submission, the stored row has its five answer fields non-empty. -/
theorem c6_witness :
    (SurveyResponse.mk 1 "2024-01-05 10:00:00"
        "No AI adoption yet" "x" "y" "z" "w").ai_adoption ≠ "" ∧
    (SurveyResponse.mk 1 "2024-01-05 10:00:00"
        "No AI adoption yet" "x" "y" "z" "w").ai_impact ≠ "" ∧
    (SurveyResponse.mk 1 "2024-01-05 10:00:00"
        "No AI adoption yet" "x" "y" "z" "w").biggest_concern ≠ "" ∧
    (SurveyResponse.mk 1 "2024-01-05 10:00:00"
        "No AI adoption yet" "x" "y" "z" "w").ai_opportunities ≠ "" ∧
    (SurveyResponse.mk 1 "2024-01-05 10:00:00"
        "No AI adoption yet" "x" "y" "z" "w").implementation_barriers ≠ "" :=
  c6_no_partial_responses
    (submit_survey "2024-01-05 10:00:00"
      [("ai_adoption", "No AI adoption yet"), ("ai_impact", "x"),
       ("biggest_concern", "y"), ("ai_opportunities", "z"),
       ("implementation_barriers", "w")] initialState).2
    (Reachable.submit _ _ Reachable.init)
    (SurveyResponse.mk 1 "2024-01-05 10:00:00"
      "No AI adoption yet" "x" "y" "z" "w")
    (by decide)

/-- C8: whenever the dashboard renders its data view, the tally of every
chart (each single-choice question) sums to `totalResponses`. -/
theorem c8_tally_sums_to_total (st : StoreState)
    (charts : List (String × List (String × Nat))) (total : Nat)
    (latest : String)
    (h : dashboard st = DashboardView.data charts total latest) :
    ∀ c ∈ charts, (c.2.map Prod.snd).sum = total := by
  unfold dashboard at h
  by_cases he : (get_responses st).isEmpty
  · rw [if_pos he] at h
    exact absurd h (by simp)
  · rw [if_neg he] at h
    injection h with hcharts htotal hlatest
    subst hcharts
    subst htotal
    intro c hc
    simp only [List.mem_cons, List.mem_singleton, List.not_mem_nil] at hc
    rcases hc with rfl | rfl | rfl | hc
    · simp [sum_value_counts]
    · simp [sum_value_counts]
    · simp [sum_value_counts]
    · cases hc

/-- Witness for C8 at a one-row store: the adoption tally of its rendered
dashboard sums to the total of 1. -/
theorem c8_witness :
    ((("AI Adoption Levels", [("a", 1)]) :
        String × List (String × Nat)).2.map Prod.snd).sum = 1 :=
  c8_tally_sums_to_total
    ⟨[SurveyResponse.mk 1 "2024-01-05 10:00:00" "a" "b" "c" "d" "e"], 2⟩
    [("AI Adoption Levels", [("a", 1)]),
     ("Expected AI Impact", [("b", 1)]),
     ("Biggest Concerns", [("c", 1)])]
    1 "2024-01-05 10:00:00" (by decide)
    ("AI Adoption Levels", [("a", 1)]) (by decide)

/-- Distinguishes the two shapes the dashboard route can render. -/
def DashboardView.isData : DashboardView → Bool
  | .data _ _ _ => true
  | .noData _ _ => false

/-- Counterexample for C9: on the empty store the dashboard does not
render a data view at all — in particular it renders neither a report
with three empty tally maps, zero total and the `"No responses yet"`
marker, nor one with an empty chart list — it returns early with the
message page. -/
theorem c9_counterexample :
    (dashboard initialState).isData = false ∧
    dashboard initialState ≠
      DashboardView.data
        [("AI Adoption Levels", []), ("Expected AI Impact", []),
         ("Biggest Concerns", [])] 0 "No responses yet" ∧
    dashboard initialState ≠ DashboardView.data [] 0 "No responses yet" := by
  decide

/-- C9 as amended: when the store is empty the dashboard renders the
explicit no-data page — the message `"No survey responses yet."` with an
empty chart list — computing no total, no latest-timestamp marker and no
tallies. -/
theorem c9_empty_store_no_data (st : StoreState) (h : st.rows = []) :
    dashboard st = DashboardView.noData "No survey responses yet." [] := by
  simp [dashboard, get_responses, h, List.insertionSort]

/-- Witness for C9: the fresh database renders the no-data page. -/
theorem c9_witness :
    dashboard initialState = DashboardView.noData "No survey responses yet." [] :=
  c9_empty_store_no_data initialState rfl

/-- Counterexample for C7: a submission whose `ai_adoption` answer is not
one of the five options declared for that question is nevertheless
accepted — the handler renders the thank-you page and the answer is
stored verbatim. -/
theorem c7_counterexample :
    (submit_survey "2024-01-05 10:00:00"
        [("ai_adoption", "Complete hearsay"), ("ai_impact", "x"),
         ("biggest_concern", "y"), ("ai_opportunities", "z"),
         ("implementation_barriers", "w")] initialState).1 =
      SubmitResult.thankYou ∧
    ((submit_survey "2024-01-05 10:00:00"
        [("ai_adoption", "Complete hearsay"), ("ai_impact", "x"),
         ("biggest_concern", "y"), ("ai_opportunities", "z"),
         ("implementation_barriers", "w")] initialState).2.rows.map
      (fun r => r.ai_adoption)) = ["Complete hearsay"] ∧
    "Complete hearsay" ∉ optionsFor "ai_adoption" := by
  decide

/-- C7 as amended: the handler checks only that the five fields are
non-empty; it never compares a single-choice answer against the declared
option set, so any form with five non-empty values — whether or not the
single-choice answers belong to their option sets — is accepted and its
values are stored verbatim. -/
theorem c7_amended_no_option_check (now : String) (f : Form) (st : StoreState)
    (h : ∀ k ∈ requiredFields, fieldMissing f k = false) :
    (submit_survey now f st).1 = SubmitResult.thankYou ∧
    ∃ r, (submit_survey now f st).2.rows = st.rows ++ [r] ∧
      r.ai_adoption = formGetD f "ai_adoption" ∧
      r.ai_impact = formGetD f "ai_impact" ∧
      r.biggest_concern = formGetD f "biggest_concern" := by
  have hfind : requiredFields.find? (fun j => fieldMissing f j) = none :=
    List.find?_eq_none.mpr (fun j hj => by simp [h j hj])
  exact ⟨by simp [submit_survey, hfind],
    SurveyResponse.mk st.nextId now (formGetD f "ai_adoption")
      (formGetD f "ai_impact") (formGetD f "biggest_concern")
      (formGetD f "ai_opportunities") (formGetD f "implementation_barriers"),
    by simp [submit_survey, hfind, save_response], rfl, rfl, rfl⟩

/-- Witness for C7: the amended statement applied to the concrete
out-of-option-set form. -/
theorem c7_witness :
    (submit_survey "2024-01-05 10:00:00"
        [("ai_adoption", "Complete hearsay"), ("ai_impact", "x"),
         ("biggest_concern", "y"), ("ai_opportunities", "z"),
         ("implementation_barriers", "w")] initialState).1 =
      SubmitResult.thankYou ∧
    ∃ r, (submit_survey "2024-01-05 10:00:00"
        [("ai_adoption", "Complete hearsay"), ("ai_impact", "x"),
         ("biggest_concern", "y"), ("ai_opportunities", "z"),
         ("implementation_barriers", "w")] initialState).2.rows =
        initialState.rows ++ [r] ∧
      r.ai_adoption = formGetD
        [("ai_adoption", "Complete hearsay"), ("ai_impact", "x"),
         ("biggest_concern", "y"), ("ai_opportunities", "z"),
         ("implementation_barriers", "w")] "ai_adoption" ∧
      r.ai_impact = formGetD
        [("ai_adoption", "Complete hearsay"), ("ai_impact", "x"),
         ("biggest_concern", "y"), ("ai_opportunities", "z"),
         ("implementation_barriers", "w")] "ai_impact" ∧
      r.biggest_concern = formGetD
        [("ai_adoption", "Complete hearsay"), ("ai_impact", "x"),
         ("biggest_concern", "y"), ("ai_opportunities", "z"),
         ("implementation_barriers", "w")] "biggest_concern" :=
  c7_amended_no_option_check _ _ _ (by decide)

/-- C4: for each free-text question the featured excerpts are the first 3
entries of the non-empty, whitespace-trimmed responses in the given
(most-recent-first) order; no excerpt is empty after trimming, there are
never more than 3, and when fewer than 3 non-empty trimmed entries exist
all of them are returned. -/
theorem c4_featured_excerpts (texts : List String) :
    (∀ s ∈ featuredExcerpts texts, s ≠ "") ∧
    (featuredExcerpts texts).length ≤ 3 ∧
    featuredExcerpts texts =
      ((texts.map pyStrip).filter (fun s => !(s == ""))).take 3 ∧
    (((texts.map pyStrip).filter (fun s => !(s == ""))).length ≤ 3 →
      featuredExcerpts texts = (texts.map pyStrip).filter (fun s => !(s == ""))) := by
  refine ⟨?_, ?_, rfl, ?_⟩
  · intro s hs
    have hmem : s ∈ (texts.map pyStrip).filter (fun s => !(s == "")) :=
      List.mem_of_mem_take hs
    have hp := (List.mem_filter.mp hmem).2
    simpa using hp
  · exact List.length_take_le _ _
  · intro h
    exact List.take_of_length_le h

/-- Witness for C4 on a concrete column with blank and padded entries:
only the two non-blank entries survive, trimmed. -/
theorem c4_witness :
    featuredExcerpts ["  great  ", "", "   ", "cost savings"] =
      ["great", "cost savings"] ∧
    (featuredExcerpts ["  great  ", "", "   ", "cost savings"]).length ≤ 3 ∧
    featuredExcerpts ["  great  ", "", "   ", "cost savings"] =
      ((["  great  ", "", "   ", "cost savings"].map pyStrip).filter
        (fun s => !(s == ""))) :=
  ⟨by decide, (c4_featured_excerpts _).2.1,
    (c4_featured_excerpts _).2.2.2 (by decide)⟩

/-- Witness for C10: saving the empty form stores a row whose five answer
fields are all the empty string. -/
theorem c10_witness :
    (save_response "2024-01-05 10:00:00" [] initialState).rows =
      [SurveyResponse.mk 1 "2024-01-05 10:00:00" "" "" "" "" ""] := by
  obtain ⟨r, h1, -, h3, h4, h5, h6, h7, h8, h9⟩ :=
    c10_save_defaults "2024-01-05 10:00:00" [] initialState
  have hr : r = SurveyResponse.mk 1 "2024-01-05 10:00:00" "" "" "" "" "" := by
    have e5 := h5 rfl
    have e6 := h6 rfl
    have e7 := h7 rfl
    have e8 := h8 rfl
    have e9 := h9 rfl
    cases r
    simp only [initialState] at h3
    simp_all
  rw [h1, hr]
  simp [initialState]
